import Mathlib

/-!
Shallow embedding of the kora-chatbot campus-assistant backend
(`app/services/llm_followups.py` and `app/routers/chatbot.py`).
External collaborators (the document store, the OpenAI client and the RAG
answer provider) are modelled as explicit oracle parameters; everything
else is translated directly from the Python source.
-/

/-- Python `str.lower()` as character-wise lowercasing. -/
def pyLower (s : String) : String := ⟨s.toList.map Char.toLower⟩

/-- Does `needle` occur (contiguously) somewhere in the list? -/
def occursInAux (needle : List Char) : List Char → Bool
  | [] => needle.isEmpty
  | c :: cs => needle.isPrefixOf (c :: cs) || occursInAux needle cs

/-- Python substring containment `needle in hay`. -/
def pyIn (needle hay : String) : Bool := occursInAux needle.toList hay.toList

/-- Characters matched by Python's `str.strip()` and by regex `\s`
(ASCII range). -/
def pyWs (c : Char) : Bool :=
  c = ' ' || c = '\t' || c = '\n' || c = '\r' || c = '\x0b' || c = '\x0c'

/-- Python `str.strip()`. -/
def pyStrip (s : String) : String :=
  ⟨((s.toList.dropWhile pyWs).reverse.dropWhile pyWs).reverse⟩

/-- Python list slicing `l[:k]` for an `int` bound `k`: a negative bound
counts from the end of the list, clamped at zero. -/
def pyTake {α : Type} (k : Int) (l : List α) : List α :=
  if 0 ≤ k then l.take k.toNat else l.take ((l.length : Int) + k).toNat

/-- Leftmost occurrence of `sep`: the text before it and the text after it. -/
def breakFirst (sep : List Char) : List Char → Option (List Char × List Char)
  | [] => none
  | c :: cs =>
    if sep.isPrefixOf (c :: cs) then some ([], (c :: cs).drop sep.length)
    else
      match breakFirst sep cs with
      | some (pre, post) => some (c :: pre, post)
      | none => none

/-- Fuel-indexed worker for Python `str.split(sep)` with a non-empty
separator. -/
def splitLoop (sep : List Char) : Nat → List Char → List (List Char)
  | 0, cs => [cs]
  | fuel + 1, cs =>
    match breakFirst sep cs with
    | some (pre, post) => pre :: splitLoop sep fuel post
    | none => [cs]

/-- Python `s.split(sep)` for a non-empty separator. -/
def pySplit (s sep : String) : List String :=
  (splitLoop sep.toList (s.length + 1) s.toList).map (fun l => ⟨l⟩)

/-- JSON values as produced by Python's `json.loads`; numeric payloads are
never inspected downstream, so only the shape of numbers is kept. -/
inductive JVal where
  | jnull
  | jbool (b : Bool)
  | jnum
  | jstr (s : String)
  | jarr (xs : List JVal)
  | jobj (fields : List (String × JVal))

/-- Whitespace accepted between JSON tokens. -/
def jsonWsChar (c : Char) : Bool := c = ' ' || c = '\t' || c = '\n' || c = '\r'

def skipWs (cs : List Char) : List Char := cs.dropWhile jsonWsChar

/-- The value of one hexadecimal digit, by code point: digits, then the
lowercase and the uppercase letter ranges. -/
def hexDigitVal (c : Char) : Option Nat :=
  let n := c.toNat
  if 0x30 ≤ n && n ≤ 0x39 then some (n - 0x30)
  else if 0x61 ≤ n && n ≤ 0x66 then some (n - 0x57)
  else if 0x41 ≤ n && n ≤ 0x46 then some (n - 0x37)
  else none

def parseHex4 : List Char → Option (Nat × List Char)
  | a :: b :: c :: d :: rest =>
    match hexDigitVal a, hexDigitVal b, hexDigitVal c, hexDigitVal d with
    | some x, some y, some z, some w =>
      some (x * 0x1000 + y * 0x100 + z * 0x10 + w, rest)
    | _, _, _, _ => none
  | _ => none

/-- JSON string body scanner (entered after the opening quote): returns the
decoded characters and the remainder after the closing quote.  Mirrors
Python's strict `json` scanner: the usual single-character escapes,
`\uXXXX` escapes with surrogate-pair combination, and rejection of raw
control characters. -/
def parseStrChars : Nat → List Char → Option (List Char × List Char)
  | 0, _ => none
  | _, [] => none
  | fuel + 1, c :: cs =>
    if c = '\"' then some ([], cs)
    else if c = '\\' then
      match cs with
      | [] => none
      | e :: cs' =>
        if e = 'u' then
          match parseHex4 cs' with
          | none => none
          | some (n, rest) =>
            if 0xd800 ≤ n && n ≤ 0xdbff then
              match rest with
              | '\\' :: 'u' :: rest2 =>
                match parseHex4 rest2 with
                | some (m, rest3) =>
                  if 0xdc00 ≤ m && m ≤ 0xdfff then
                    (parseStrChars fuel rest3).map
                      (fun p => (Char.ofNat (0x10000 + (n - 0xd800) * 0x400 + (m - 0xdc00)) :: p.1, p.2))
                  else
                    (parseStrChars fuel rest).map (fun p => (Char.ofNat n :: p.1, p.2))
                | none =>
                  (parseStrChars fuel rest).map (fun p => (Char.ofNat n :: p.1, p.2))
              | _ => (parseStrChars fuel rest).map (fun p => (Char.ofNat n :: p.1, p.2))
            else
              (parseStrChars fuel rest).map (fun p => (Char.ofNat n :: p.1, p.2))
        else
          match
            (if e = '\"' then some '\"'
             else if e = '\\' then some '\\'
             else if e = '/' then some '/'
             else if e = 'b' then some '\x08'
             else if e = 'f' then some '\x0c'
             else if e = 'n' then some '\n'
             else if e = 'r' then some '\r'
             else if e = 't' then some '\t'
             else none)
          with
          | some ch => (parseStrChars fuel cs').map (fun p => (ch :: p.1, p.2))
          | none => none
    else if c.toNat < 0x20 then none
    else (parseStrChars fuel cs).map (fun p => (c :: p.1, p.2))

def parseExpPart (cs : List Char) : Option (List Char) :=
  match cs with
  | [] => some []
  | e :: rest =>
    if e = 'e' || e = 'E' then
      let rest1 :=
        match rest with
        | s :: r2 => if s = '+' || s = '-' then r2 else rest
        | [] => rest
      match rest1 with
      | d :: _ => if d.isDigit then some (rest1.dropWhile Char.isDigit) else none
      | [] => none
    else some cs

def parseFracPart (cs : List Char) : Option (List Char) :=
  match cs with
  | '.' :: rest =>
    (match rest with
     | d :: _ => if d.isDigit then parseExpPart (rest.dropWhile Char.isDigit) else none
     | [] => none)
  | _ => parseExpPart cs

/-- Recognise a JSON number token and return the remaining input. -/
def parseNumberTail (cs : List Char) : Option (List Char) :=
  let cs1 :=
    match cs with
    | '-' :: r => r
    | _ => cs
  match cs1 with
  | [] => none
  | c :: r =>
    if c = '0' then parseFracPart r
    else if c.isDigit then parseFracPart (r.dropWhile Char.isDigit)
    else none

mutual

/-- Fuel-indexed JSON value parser (the fuel only bounds recursion depth;
`jsonParse` supplies enough fuel for any input). -/
def parseValue (fuel : Nat) (cs0 : List Char) : Option (JVal × List Char) :=
  match fuel with
  | 0 => none
  | fuel' + 1 =>
    let cs := skipWs cs0
    if ("true".toList).isPrefixOf cs then some (JVal.jbool true, cs.drop 4)
    else if ("false".toList).isPrefixOf cs then some (JVal.jbool false, cs.drop 5)
    else if ("null".toList).isPrefixOf cs then some (JVal.jnull, cs.drop 4)
    else if ("NaN".toList).isPrefixOf cs then some (JVal.jnum, cs.drop 3)
    else if ("Infinity".toList).isPrefixOf cs then some (JVal.jnum, cs.drop 8)
    else if ("-Infinity".toList).isPrefixOf cs then some (JVal.jnum, cs.drop 9)
    else
      match cs with
      | [] => none
      | c :: rest =>
        if c = '\"' then (parseStrChars fuel' rest).map (fun p => (JVal.jstr ⟨p.1⟩, p.2))
        else if c = '[' then (parseArray fuel' rest).map (fun p => (JVal.jarr p.1, p.2))
        else if c = '\x7b' then (parseObj fuel' rest).map (fun p => (JVal.jobj p.1, p.2))
        else
          match parseNumberTail cs with
          | some r => some (JVal.jnum, r)
          | none => none

/-- Array parser, entered just after the opening bracket. -/
def parseArray (fuel : Nat) (cs : List Char) : Option (List JVal × List Char) :=
  match fuel with
  | 0 => none
  | fuel' + 1 =>
    match skipWs cs with
    | ']' :: r => some ([], r)
    | cs1 => parseArrayRest fuel' cs1

def parseArrayRest (fuel : Nat) (cs : List Char) : Option (List JVal × List Char) :=
  match fuel with
  | 0 => none
  | fuel' + 1 =>
    match parseValue fuel' cs with
    | none => none
    | some (v, r) =>
      match skipWs r with
      | ',' :: r2 => (parseArrayRest fuel' r2).map (fun p => (v :: p.1, p.2))
      | ']' :: r2 => some ([v], r2)
      | _ => none

/-- Object parser, entered just after the opening brace. -/
def parseObj (fuel : Nat) (cs : List Char) : Option (List (String × JVal) × List Char) :=
  match fuel with
  | 0 => none
  | fuel' + 1 =>
    match skipWs cs with
    | '\x7d' :: r => some ([], r)
    | cs1 => parseObjRest fuel' cs1

def parseObjRest (fuel : Nat) (cs : List Char) : Option (List (String × JVal) × List Char) :=
  match fuel with
  | 0 => none
  | fuel' + 1 =>
    match skipWs cs with
    | '\"' :: r =>
      match parseStrChars fuel' r with
      | none => none
      | some (key, r1) =>
        match skipWs r1 with
        | ':' :: r2 =>
          match parseValue fuel' r2 with
          | none => none
          | some (v, r3) =>
            match skipWs r3 with
            | ',' :: r4 => (parseObjRest fuel' r4).map (fun p => ((String.mk key, v) :: p.1, p.2))
            | '\x7d' :: r4 => some ([(String.mk key, v)], r4)
            | _ => none
        | _ => none
    | _ => none

end

/-- Python `json.loads`: parse a complete JSON document (trailing data is an
error). -/
def jsonParse (s : String) : Option JVal :=
  let cs := s.toList
  match parseValue (4 * cs.length + 8) cs with
  | some (v, rest) => if skipWs rest = [] then some v else none
  | none => none

/-- Python `[str(x) for x in data if isinstance(x, str)]`. -/
def strOnly (xs : List JVal) : List String :=
  xs.filterMap (fun v =>
    match v with
    | JVal.jstr s => some s
    | _ => none)

/-- The single candidate found by `re.search` for the greedy pattern of
`_safe_json_list`: the substring running from the first opening bracket to
the last closing bracket after it, if both exist. -/
def bracketFrag (s : String) : Option String :=
  let cs := s.toList
  let pre := cs.takeWhile (fun c => c ≠ '[')
  if pre.length < cs.length then
    let tl := cs.drop (pre.length + 1)
    match tl.reverse.findIdx? (fun c => c = ']') with
    | some k => some (String.mk ('[' :: tl.take (tl.length - k)))
    | none => none
  else none

/-- `_safe_json_list` from `app/services/llm_followups.py`. -/
def safeJsonList (s : String) : List String :=
  if s = "" then []
  else
    match jsonParse s with
    | some (JVal.jarr xs) => strOnly xs
    | _ =>
      match bracketFrag s with
      | some frag =>
        match jsonParse frag with
        | some (JVal.jarr xs) => strOnly xs
        | _ => []
      | none => []

/-- A knowledge hit as projected by `_mongo_text_search` (a missing field is
modelled by the empty string, matching `h.get(..., "")` / `... or ""`). -/
structure Hit where
  title : String
  category : String
  url : String
deriving DecidableEq, Repr

/-- Chip payloads: an FAQ query or an action. -/
inductive Payload where
  | faq (query : String)
  | action (act : String)
deriving DecidableEq, Repr

/-- A follow-up chip. -/
structure Chip where
  label : String
  payload : Payload
deriving DecidableEq, Repr

/-- The process-wide read-only state: the document store, the chat
completion client (taking the system and user messages), and the
configuration flags read from `settings`. -/
structure Env where
  db : String → Nat → List Hit
  llm : String × String → Except Unit String
  useLlmFollowups : Bool
  openaiApiKey : String
  debugFollowups : Bool

/-- `ESCALATION_KEYWORDS` (a Python set; listed in declaration order, which
is irrelevant to the `any` below). -/
def escalationKeywords : List String :=
  ["agent", "human", "person", "representative", "talk to someone",
   "talk to admin", "live chat", "connect me", "escalate", "call", "phone",
   "help desk", "support"]

/-- `_wants_human`. -/
def wantsHuman (text : String) : Bool :=
  escalationKeywords.any (fun k => pyIn k (pyLower text))

/-- The `low_conf` phrase list of `_should_offer_live_chat`. -/
def lowConfPhrases : List String :=
  ["i\x27m not sure", "no information", "could not find", "not available",
   "i don\x27t have", "unable to find"]

/-- `_should_offer_live_chat` (the `hits` count is accepted and ignored,
as in the source). -/
def shouldOfferLiveChat (userQ answerText : String) (_hits : Nat) : Bool :=
  wantsHuman userQ || lowConfPhrases.any (fun p => pyIn p (pyLower answerText))

/-- `_mongo_text_search`: empty or all-whitespace queries short-circuit to
`[]`; otherwise the external document store answers. -/
def mongoTextSearch (db : String → Nat → List Hit) (query : String) (lim : Nat) : List Hit :=
  if query = "" || pyStrip query = "" then [] else db query lim

/-- Strip one trailing question mark after `strip()`, as in
`_llm_generate_followups`. -/
def stripQ (it : String) : String :=
  let s := pyStrip it
  if s.toList.getLast? = some '?' then String.mk s.toList.dropLast else s

/-- The dedup-and-cap loop of `_llm_generate_followups`: `uniq` is the
accumulated output, `seen` the set of lowercased labels already taken. -/
def dedupCap (k : Int) : List String → List String → List String → List String
  | [], uniq, _ => uniq
  | it :: rest, uniq, seen =>
    let s := stripQ it
    if s ≠ "" && !(seen.contains (pyLower s)) then
      (if k ≤ ((uniq ++ [s]).length : Int) then uniq ++ [s]
       else dedupCap k rest (uniq ++ [s]) (seen ++ [pyLower s]))
    else
      (if k ≤ (uniq.length : Int) then uniq
       else dedupCap k rest uniq seen)

/-- The `ctx` block of `_llm_generate_followups`. -/
def ctxLines (candidates : List Hit) : String :=
  let ls := (pyTake 10 candidates).filterMap (fun c =>
    let t := pyStrip c.title
    if t ≠ "" then some ("- " ++ t ++ " [" ++ c.category ++ "] " ++ c.url)
    else none)
  if ls ≠ [] then String.intercalate "\n" ls else "(no candidates)"

/-- The system prompt of `_llm_generate_followups`. -/
def sysPrompt : String :=
  "You are a campus assistant crafting follow-up suggestions that feel like the student\x27s next question. Return ONLY a JSON array of 3-5 strings. Constraints: 1) Each suggestion must be a natural, concise user question (max ~10 words). 2) Avoid vague labels and categories; be specific. 3) No duplicates, no punctuation at the end, no numbering. 4) Suggestions must be answerable by the provided knowledge items when possible."

/-- The user prompt of `_llm_generate_followups`. -/
def usrPrompt (userQ answerText : String) (candidates : List Hit) : String :=
  "Student question: " ++ userQ ++ "\n\nAssistant answer:\n" ++ answerText ++
    "\n\nRelevant knowledge items:\n" ++ ctxLines candidates ++
    "\n\nProduce a JSON array of short follow-up questions likely to be asked next."

/-- `_llm_generate_followups`: a failure of the completion client
propagates; otherwise the reply is JSON-extracted, deduplicated
case-insensitively and capped at `k`. -/
def llmGenerateFollowups (llm : String × String → Except Unit String)
    (userQ answerText : String) (candidates : List Hit) (k : Int) :
    Except Unit (List String) :=
  match llm (sysPrompt, usrPrompt userQ answerText candidates) with
  | Except.error e => Except.error e
  | Except.ok text => Except.ok (dedupCap k (safeJsonList text) [] [])

/-- The two text searches at the top of `build_llm_style_followups`. -/
def searchedHits (env : Env) (userQuestion answerText : String) : List Hit :=
  let hits := mongoTextSearch env.db userQuestion 8
  if hits.isEmpty && answerText ≠ "" then mongoTextSearch env.db answerText 8
  else hits

/-- The guarded model call of `build_llm_style_followups`, returning the
suggestions together with the `source` tag. -/
def llmPhase (env : Env) (userQuestion answerText : String)
    (hits : List Hit) (k : Int) : List String × String :=
  if env.useLlmFollowups && env.openaiApiKey ≠ "" then
    match llmGenerateFollowups env.llm userQuestion answerText hits k with
    | Except.ok s => (s, if !s.isEmpty then "openai" else "fallback")
    | Except.error _ => ([], "fallback_error")
  else ([], "fallback")

/-- The hardcoded generic suggestions of `build_llm_style_followups`. -/
def hardcodedSuggestions : List String :=
  ["application deadlines for scholarships",
   "GPA needed for freshman admission",
   "who is my admissions counselor",
   "how to apply for scholarships"]

/-- The no-model fallback of `build_llm_style_followups`: knowledge-hit
titles, then the hardcoded list. -/
def fallbackSuggestions (hits : List Hit) (k : Int) : List String :=
  let base := ((pyTake 6 hits).map Hit.title).filter (fun t => t != "")
  let s1 := pyTake k (base.filter (fun s => s != ""))
  if s1.isEmpty then pyTake k hardcodedSuggestions else s1

/-- `build_llm_style_followups`: returns `(chips[:k], suggest_live_chat,
source)`. -/
def buildLlmStyleFollowups (env : Env) (userQuestion answerText : String)
    (k : Int) : List Chip × Bool × String :=
  let hits := searchedHits env userQuestion answerText
  let p := llmPhase env userQuestion answerText hits k
  let suggestions := if p.1.isEmpty then fallbackSuggestions hits k else p.1
  (pyTake k (suggestions.map (fun s => Chip.mk s (Payload.faq s))),
   shouldOfferLiveChat userQuestion answerText hits.length,
   p.2)

/-- The escalation chip substituted by both question handlers. -/
def adminChip : Chip :=
  Chip.mk "Talk to an admin" (Payload.action "escalate")

/-- The JSON body assembled by `chat_question` (the `followup_generator`
field is present only when `settings.debug_followups` is set). -/
structure ChatResponse where
  answer : String
  suggest_live_chat : Bool
  suggested_followups : List Chip
  followup_generator : Option String
deriving DecidableEq, Repr

/-- `chat_question`: the answer provider `g` is `rag_pipeline.get_answer`
(only the answer component matters here); a provider exception propagates
uncaught. -/
def chatQuestion (env : Env) (g : String → Except Unit String)
    (question : String) : Except Unit ChatResponse :=
  match g question with
  | Except.error e => Except.error e
  | Except.ok answer =>
    let r := buildLlmStyleFollowups env question answer 4
    let chips := if r.2.1 then [adminChip] else r.1
    Except.ok
      (ChatResponse.mk answer r.2.1 chips
        (if env.debugFollowups then some r.2.2 else none))

/-- One server-sent event of `chat_question_stream`, with the JSON payload
abstracted into its fields. -/
inductive Event where
  | chunk (content : String)
  | followups (suggest_live_chat : Bool) (suggested_followups : List Chip)
      (followup_generator : Option String)
  | done
deriving DecidableEq, Repr

/-- The events emitted after the provider chunks are exhausted: the
follow-ups event built from the accumulated answer, then the terminal
event. -/
def streamTail (env : Env) (question fullAnswer : String) : List Event :=
  let r := buildLlmStyleFollowups env question fullAnswer 4
  let chips := if r.2.1 then [adminChip] else r.1
  [Event.followups r.2.1 chips (if env.debugFollowups then some r.2.2 else none),
   Event.done]

/-- The `event_generator` loop of `chat_question_stream`: one chunk event
per provider chunk while accumulating `full_answer`, then the tail. -/
def eventGenerator (env : Env) (question fullAnswer : String) :
    List String → List Event
  | [] => streamTail env question fullAnswer
  | c :: rest => Event.chunk c :: eventGenerator env question (fullAnswer ++ c) rest

/-- `chat_question_stream`, with the provider's finite chunk sequence as a
parameter. -/
def chatQuestionStream (env : Env) (question : String)
    (chunks : List String) : List Event :=
  eventGenerator env question "" chunks

/-- The result of `analyze_ticket_request`. -/
structure Ticket where
  subject : String
  category : String
  priority : String
  description : String
deriving DecidableEq, Repr

/-- The all-defaults ticket produced when nothing can be extracted. -/
def ticketDefaults (msg : String) : Ticket :=
  Ticket.mk "Support Request" "Other" "Medium" msg

def validCategories : List String :=
  ["Technical Support", "Academic", "Financial", "Housing", "Registration",
   "Other"]

def validPriorities : List String :=
  ["Low", "Medium", "High"]

/-- The f-string prompt assembled by `analyze_ticket_request` (triple-quoted
in the source, hence the indentation). -/
def analysisPrompt (msg : String) : String :=
  "\n        Analyze the following user message and extract ticket information.\n\n        User message: \"" ++
    msg ++
    "\"\n\n        Extract the following:\n        1. Subject: A brief subject line (max 100 chars)\n        2. Category: One of (Technical Support, Academic, Financial, Housing, Registration, Other)\n        3. Priority: One of (Low, Medium, High) - based on urgency in the message\n        4. A clear description of the issue\n\n        Respond in this exact format:\n        SUBJECT: [subject]\n        CATEGORY: [category]\n        PRIORITY: [priority]\n        DESCRIPTION: [description]\n        "

/-- The group captured by `LABEL:\s*(.+)` once the label has just been
matched: `\s*` is greedy but backtracks so that `.+` can take at least one
character (any character under `re.DOTALL`, any non-newline character
otherwise). -/
def matchAfter (dotall : Bool) (rest : List Char) : Option (List Char) :=
  let w := rest.takeWhile pyWs
  let r := rest.drop w.length
  if r ≠ [] then some (if dotall then r else r.takeWhile (fun c => c ≠ '\n'))
  else if dotall then
    match w.getLast? with
    | some c => some [c]
    | none => none
  else
    match (w.filter (fun c => c ≠ '\n')).getLast? with
    | some c => some [c]
    | none => none

/-- `re.search` for the patterns of `analyze_ticket_request`: scan for the
leftmost occurrence of the literal label whose tail admits a group. -/
def reSearchAt (label : List Char) (dotall : Bool) : List Char → Option (List Char)
  | [] => none
  | c :: cs =>
    match (if label.isPrefixOf (c :: cs) then matchAfter dotall ((c :: cs).drop label.length) else none) with
    | some g => some g
    | none => reSearchAt label dotall cs

/-- `re.search(label + r"\s*(.+)", s)`, returning the first capture group. -/
def reSearch (label : String) (dotall : Bool) (s : String) : Option String :=
  (reSearchAt label.toList dotall s.toList).map (fun l => ⟨l⟩)

/-- True when none of the four labelled fields can be extracted from the
model answer. -/
def noTicketFields (a : String) : Bool :=
  (reSearch "SUBJECT:" false a).isNone &&
  (reSearch "CATEGORY:" false a).isNone &&
  (reSearch "PRIORITY:" false a).isNone &&
  (reSearch "DESCRIPTION:" true a).isNone

/-- `analyze_ticket_request`: field extraction with coercion to the closed
enumerations; any provider failure collapses to the defaults. -/
def analyzeTicketRequest (g : String → Except Unit String) (msg : String) :
    Ticket :=
  match g (analysisPrompt msg) with
  | Except.error _ => ticketDefaults msg
  | Except.ok answer =>
    let subject :=
      match reSearch "SUBJECT:" false answer with
      | some m => pyStrip m
      | none => "Support Request"
    let category0 :=
      match reSearch "CATEGORY:" false answer with
      | some m => pyStrip m
      | none => "Other"
    let priority0 :=
      match reSearch "PRIORITY:" false answer with
      | some m => pyStrip m
      | none => "Medium"
    let description :=
      match reSearch "DESCRIPTION:" true answer with
      | some m => pyStrip m
      | none => msg
    let category := if validCategories.contains category0 then category0 else "Other"
    let priority := if validPriorities.contains priority0 then priority0 else "Medium"
    Ticket.mk (String.mk (subject.toList.take 100)) category priority description

/-- A building record of `analyze_map_request` (coordinates are kept as
their decimal literals; they are never computed with). -/
structure Building where
  name : String
  lat : String
  lng : String
  address : String
  description : String
  hours : String
deriving DecidableEq, Repr

/-- The `buildings` alias table of `analyze_map_request`, in declaration
order. -/
def mapBuildings : List (String × Building) :=
  [("library",
    Building.mk "Mary and Jeff Bell Library" "27.713788736691168" "-97.32474868648656"
      "Mary and Jeff Bell Library, TAMUCC"
      "Main library with study spaces and research resources" "Mon-Fri 7:30am-11pm"),
   ("university center",
    Building.mk "University Center (UC)" "27.712071037382053" "-97.3257065414334"
      "University Center, TAMUCC"
      "Student hub with dining, bookstore, and meeting spaces" "Mon-Fri 7am-10pm"),
   ("uc",
    Building.mk "University Center (UC)" "27.712071037382053" "-97.3257065414334"
      "University Center, TAMUCC"
      "Student hub with dining, bookstore, and meeting spaces" "Mon-Fri 7am-10pm"),
   ("dining",
    Building.mk "Islander Dining" "27.711621676963894" "-97.32258737277509"
      "Islander Dining, TAMUCC"
      "Main dining hall with multiple food stations" "Daily 7am-9pm"),
   ("islander dining",
    Building.mk "Islander Dining" "27.711621676963894" "-97.32258737277509"
      "Islander Dining, TAMUCC"
      "Main dining hall with multiple food stations" "Daily 7am-9pm"),
   ("natural resources",
    Building.mk "Natural Resources Center (NRC)" "27.715332468715157" "-97.32880933649331"
      "Natural Resources Center, TAMUCC"
      "Environmental science and research facility" "Mon-Fri 8am-5pm"),
   ("nrc",
    Building.mk "Natural Resources Center (NRC)" "27.715332468715157" "-97.32880933649331"
      "Natural Resources Center, TAMUCC"
      "Environmental science and research facility" "Mon-Fri 8am-5pm"),
   ("engineering",
    Building.mk "Engineering Building" "27.712772225261283" "-97.32565431063824"
      "Engineering Building, TAMUCC"
      "College of Engineering classrooms and labs" "Mon-Fri 8am-6pm"),
   ("corpus christi hall",
    Building.mk "Corpus Christi Hall (CCH)" "27.71516058584113" "-97.32370567166191"
      "Corpus Christi Hall, TAMUCC"
      "Admissions, financial aid, and student services" "Mon-Fri 8am-5pm"),
   ("cch",
    Building.mk "Corpus Christi Hall (CCH)" "27.71516058584113" "-97.32370567166191"
      "Corpus Christi Hall, TAMUCC"
      "Admissions, financial aid, and student services" "Mon-Fri 8am-5pm"),
   ("student services",
    Building.mk "Student Services Center" "27.71374042156452" "-97.32390201020142"
      "Student Services Center, TAMUCC"
      "Student support services and administration" "Mon-Fri 8am-5pm"),
   ("bay hall",
    Building.mk "Bay Hall" "27.713613491472024" "-97.32348514338884"
      "Bay Hall, TAMUCC"
      "Business college classrooms and faculty offices" "Mon-Fri 8am-5pm"),
   ("sciences",
    Building.mk "Center for the Sciences" "27.712809298665885" "-97.32486990268086"
      "Center for the Sciences, TAMUCC"
      "Science labs and classrooms" "Mon-Fri 8am-6pm"),
   ("center for sciences",
    Building.mk "Center for the Sciences" "27.712809298665885" "-97.32486990268086"
      "Center for the Sciences, TAMUCC"
      "Science labs and classrooms" "Mon-Fri 8am-6pm"),
   ("education",
    Building.mk "College of Education and Human Development" "27.713186318706956" "-97.32428916719182"
      "College of Education and Human Development, TAMUCC"
      "Education college offices and classrooms" "Mon-Fri 8am-5pm"),
   ("faculty center",
    Building.mk "Faculty Center" "27.712820723536026" "-97.32358260567656"
      "Faculty Center, TAMUCC"
      "Faculty offices and meeting rooms" "Mon-Fri 8am-5pm"),
   ("wellness",
    Building.mk "Dugan Wellness Center" "27.711601112024837" "-97.32413753070178"
      "Dugan Wellness Center, TAMUCC"
      "Student health services and counseling" "Mon-Fri 8am-5pm"),
   ("dugan",
    Building.mk "Dugan Wellness Center" "27.711601112024837" "-97.32413753070178"
      "Dugan Wellness Center, TAMUCC"
      "Student health services and counseling" "Mon-Fri 8am-5pm"),
   ("health",
    Building.mk "Dugan Wellness Center" "27.711601112024837" "-97.32413753070178"
      "Dugan Wellness Center, TAMUCC"
      "Student health services and counseling" "Mon-Fri 8am-5pm"),
   ("business",
    Building.mk "College of Business" "27.714591440638948" "-97.32466461335527"
      "College of Business, TAMUCC"
      "College of Business and entrepreneurship programs" "Mon-Fri 8am-5pm"),
   ("tidal hall",
    Building.mk "Tidal Hall" "27.715529412703646" "-97.32710819211944"
      "Tidal Hall, TAMUCC"
      "Student housing residence hall" "24/7 for residents"),
   ("harte",
    Building.mk "Harte Research Institute" "27.713459500631362" "-97.32815759566772"
      "Harte Research Institute, TAMUCC"
      "Gulf of Mexico research and marine science" "Mon-Fri 8am-5pm"),
   ("counseling",
    Building.mk "University Counseling Center" "27.712490577148014" "-97.32168122550681"
      "University Counseling Center, TAMUCC"
      "Mental health and counseling services for students" "Mon-Fri 8am-5pm"),
   ("counseling center",
    Building.mk "University Counseling Center" "27.712490577148014" "-97.32168122550681"
      "University Counseling Center, TAMUCC"
      "Mental health and counseling services for students" "Mon-Fri 8am-5pm")]

/-- The response of `analyze_map_request`. -/
structure MapResult where
  location : Option Building
  description : String
deriving DecidableEq, Repr

/-- The per-building description string of `analyze_map_request`. -/
def mapDesc (b : Building) : String :=
  "📍 Here\x27s the location of the **" ++ b.name ++ "**. " ++ b.description ++ "."

/-- The no-match description of `analyze_map_request`. -/
def genericMapDescription : String :=
  "Here\x27s the TAMUCC campus map showing all major buildings."

/-- The match test of `analyze_map_request`:
`key in message or building["name"].lower() in message`. -/
def mapHit (message : String) (e : String × Building) : Bool :=
  pyIn e.1 message || pyIn (pyLower e.2.name) message

/-- The matching loop of `analyze_map_request`: the first alias whose key
occurs in the message, or whose lowercased canonical name occurs in the
message, returns early. -/
def analyzeMapLoop (message : String) : List (String × Building) → MapResult
  | [] => MapResult.mk none genericMapDescription
  | e :: rest =>
    if mapHit message e then MapResult.mk (some e.2) (mapDesc e.2)
    else analyzeMapLoop message rest

/-- `analyze_map_request`. -/
def analyzeMapRequest (msg : String) : MapResult :=
  analyzeMapLoop (pyLower msg) mapBuildings

/-- A building record of `analyze_routing_request` (name and coordinate
literals only). -/
structure RB where
  name : String
  lat : String
  lng : String
deriving DecidableEq, Repr

/-- The `buildings` alias table of `analyze_routing_request`, in
declaration order. -/
def routeBuildings : List (String × RB) :=
  [("library", RB.mk "Mary and Jeff Bell Library" "27.713788736691168" "-97.32474868648656"),
   ("university center", RB.mk "University Center (UC)" "27.712071037382053" "-97.3257065414334"),
   ("uc", RB.mk "University Center (UC)" "27.712071037382053" "-97.3257065414334"),
   ("dining", RB.mk "Islander Dining" "27.711621676963894" "-97.32258737277509"),
   ("islander dining", RB.mk "Islander Dining" "27.711621676963894" "-97.32258737277509"),
   ("natural resources", RB.mk "Natural Resources Center (NRC)" "27.715332468715157" "-97.32880933649331"),
   ("nrc", RB.mk "Natural Resources Center (NRC)" "27.715332468715157" "-97.32880933649331"),
   ("engineering", RB.mk "Engineering Building" "27.712772225261283" "-97.32565431063824"),
   ("corpus christi hall", RB.mk "Corpus Christi Hall (CCH)" "27.71516058584113" "-97.32370567166191"),
   ("cch", RB.mk "Corpus Christi Hall (CCH)" "27.71516058584113" "-97.32370567166191"),
   ("student services", RB.mk "Student Services Center" "27.71374042156452" "-97.32390201020142"),
   ("bay hall", RB.mk "Bay Hall" "27.713613491472024" "-97.32348514338884"),
   ("sciences", RB.mk "Center for the Sciences" "27.712809298665885" "-97.32486990268086"),
   ("center for sciences", RB.mk "Center for the Sciences" "27.712809298665885" "-97.32486990268086"),
   ("education", RB.mk "College of Education and Human Development" "27.713186318706956" "-97.32428916719182"),
   ("faculty center", RB.mk "Faculty Center" "27.712820723536026" "-97.32358260567656"),
   ("wellness", RB.mk "Dugan Wellness Center" "27.711601112024837" "-97.32413753070178"),
   ("dugan", RB.mk "Dugan Wellness Center" "27.711601112024837" "-97.32413753070178"),
   ("health", RB.mk "Dugan Wellness Center" "27.711601112024837" "-97.32413753070178"),
   ("business", RB.mk "College of Business" "27.714591440638948" "-97.32466461335527"),
   ("tidal hall", RB.mk "Tidal Hall" "27.715529412703646" "-97.32710819211944"),
   ("harte", RB.mk "Harte Research Institute" "27.713459500631362" "-97.32815759566772"),
   ("counseling", RB.mk "University Counseling Center" "27.712490577148014" "-97.32168122550681"),
   ("counseling center", RB.mk "University Counseling Center" "27.712490577148014" "-97.32168122550681")]

/-- `routing_patterns`, in order. -/
def routingPatterns : List (String × String) :=
  [("from", "to"), ("between", "and"), ("get to", "from")]

/-- The alias test of `analyze_routing_request`:
`key in text or key == text` (the equality disjunct is subsumed by the
containment one, as in the source). -/
def aliasHit (t : String) (e : String × RB) : Bool :=
  pyIn e.1 t || e.1 = t

/-- The inner alias scan of `analyze_routing_request`: a single pass over
the whole table, each matching key overwriting the current origin and
destination candidates. -/
def resolveTexts (originText destText : String) (o d : Option RB) :
    List (String × RB) → Option RB × Option RB
  | [] => (o, d)
  | e :: rest =>
    resolveTexts originText destText
      (if aliasHit originText e then some e.2 else o)
      (if aliasHit destText e then some e.2 else d) rest

/-- The split part of one iteration of the pattern loop of
`analyze_routing_request`: the stripped origin and destination texts, when
both prepositions occur and both splits yield a second component. -/
def pairSplit (message : String) (p : String × String) :
    Option (String × String) :=
  if pyIn p.1 message && pyIn p.2 message then
    match (pySplit message p.1).get? 1 with
    | some part1 =>
      match (pySplit part1 p.2).get? 1 with
      | some s1 => some (pyStrip ((pySplit part1 p.2).headD ""), pyStrip s1)
      | none => none
    | none => none
  else none

/-- The pattern loop of `analyze_routing_request`: no early exit; each
pattern that splits runs the alias scan on the accumulated candidates. -/
def routingLoop (message : String) (o d : Option RB) :
    List (String × String) → Option RB × Option RB
  | [] => (o, d)
  | p :: pats =>
    match pairSplit message p with
    | some (originText, destText) =>
      let od := resolveTexts originText destText o d routeBuildings
      routingLoop message od.1 od.2 pats
    | none => routingLoop message o d pats

/-- The response of `analyze_routing_request`. -/
structure RoutingResult where
  origin : Option RB
  destination : Option RB
  found : Bool
  guidance : Option String
deriving DecidableEq, Repr

/-- The `found: false` guidance message. -/
def guidanceMessage : String :=
  "I couldn\x27t identify both the origin and destination buildings. Please specify like \x27directions from Library to UC\x27 or \x27how to get from NRC to Wellness Center\x27."

/-- `analyze_routing_request`. -/
def analyzeRoutingRequest (msg : String) : RoutingResult :=
  let message := pyLower msg
  match routingLoop message none none routingPatterns with
  | (some o, some d) => RoutingResult.mk (some o) (some d) true none
  | _ => RoutingResult.mk none none false (some guidanceMessage)

/-- Last-match-wins alias resolution: the building of the latest matching
key in declaration order, or the default when no key matches. -/
def lastResolve (t : String) (dflt : Option RB) : Option RB :=
  match routeBuildings.reverse.find? (aliasHit t) with
  | some e => some e.2
  | none => dflt

/-- One pattern step of the routing loop, phrased through `lastResolve`:
a pattern that fails to split leaves the accumulated pair unchanged, and a
pattern that splits updates each side only when its text resolves. -/
def pairUpdate (message : String) (od : Option RB × Option RB)
    (p : String × String) : Option RB × Option RB :=
  match pairSplit message p with
  | some (ot, dt) => (lastResolve ot od.1, lastResolve dt od.2)
  | none => od

/-- The JSON list that `_safe_json_list` extracts, when any: the directly
parsed document when it is a list, otherwise the greedy bracketed fragment
when it parses to a list. -/
def extractedList (s : String) : Option (List JVal) :=
  match jsonParse s with
  | some (JVal.jarr xs) => some xs
  | _ =>
    match bracketFrag s with
    | some frag =>
      match jsonParse frag with
      | some (JVal.jarr xs) => some xs
      | _ => none
    | none => none

/-- Is `s` a valid JSON document whose top-level value is not a list? -/
def isJsonNonList (s : String) : Bool :=
  match jsonParse s with
  | some (JVal.jarr _) => false
  | some _ => true
  | none => false

/-- Fixture: empty document store, failing model client, model path
disabled. -/
def envPlain : Env :=
  Env.mk (fun _ _ => []) (fun _ => Except.error ()) false "" false

/-- Fixture: the document store returns two hits whose titles differ only
in case; model path disabled. -/
def envDupHits : Env :=
  Env.mk (fun _ _ => [Hit.mk "Apply now" "" "", Hit.mk "apply now" "" ""])
    (fun _ => Except.error ()) false "" false

/-- Fixture: model path enabled, the client answering a fixed JSON array
with a case-insensitive duplicate. -/
def envOpenai : Env :=
  Env.mk (fun _ _ => []) (fun _ => Except.ok "[\"A\", \"a\", \"b\"]") true "sk" false

/-- Fixture: an answer provider that always succeeds. -/
def okProvider : String → Except Unit String := fun _ => Except.ok "ok"

/-- Fixture: an answer provider that always raises. -/
def errProvider : String → Except Unit String := fun _ => Except.error ()

theorem pyTake_sublist {α : Type} (k : Int) (l : List α) :
    (pyTake k l).Sublist l := by
  unfold pyTake
  split <;> exact List.take_sublist _ _

theorem mem_pyTake {α : Type} {k : Int} {l : List α} {x : α}
    (h : x ∈ pyTake k l) : x ∈ l :=
  (pyTake_sublist k l).subset h

theorem pyTake_length_le {k : Int} (hk : 0 ≤ k) {α : Type} (l : List α) :
    ((pyTake k l).length : Int) ≤ k := by
  have h1 : (pyTake k l).length ≤ k.toNat := by
    unfold pyTake
    rw [if_pos hk, List.length_take]
    exact min_le_left _ _
  calc ((pyTake k l).length : Int) ≤ (k.toNat : Int) := by exact_mod_cast h1
    _ = k := Int.toNat_of_nonneg hk

theorem dedupCap_mem_ne (k : Int) :
    ∀ (items uniq seen : List String), (∀ x ∈ uniq, x ≠ "") →
      ∀ x ∈ dedupCap k items uniq seen, x ≠ "" := by
  intro items
  induction items with
  | nil => intro uniq seen h x hx; exact h x hx
  | cons it rest ih =>
    intro uniq seen h x hx
    rw [dedupCap] at hx
    have happ : ∀ y ∈ uniq ++ [stripQ it], stripQ it ≠ "" → y ≠ "" := by
      intro y hy hne
      rcases List.mem_append.mp hy with hy | hy
      · exact h y hy
      · rw [List.mem_singleton] at hy
        subst hy
        exact hne
    split at hx
    · next hc =>
      have hne : stripQ it ≠ "" := by
        have := (Bool.and_eq_true .. ).mp hc
        exact of_decide_eq_true this.1
      split at hx
      · exact happ x hx hne
      · exact ih _ _ (fun y hy => happ y hy hne) x hx
    · split at hx
      · exact h x hx
      · exact ih _ _ h x hx

theorem dedupCap_pairwise (k : Int) :
    ∀ (items uniq seen : List String),
      List.Pairwise (fun a b => pyLower a ≠ pyLower b) uniq →
      (∀ x ∈ uniq, seen.contains (pyLower x) = true) →
      List.Pairwise (fun a b => pyLower a ≠ pyLower b) (dedupCap k items uniq seen) := by
  intro items
  induction items with
  | nil => intro uniq seen hp _; exact hp
  | cons it rest ih =>
    intro uniq seen hp hs
    rw [dedupCap]
    split
    · next hc =>
      have hnc : seen.contains (pyLower (stripQ it)) = false := by
        have := (Bool.and_eq_true ..).mp hc
        simpa using this.2
      have hp' : List.Pairwise (fun a b => pyLower a ≠ pyLower b)
          (uniq ++ [stripQ it]) := by
        rw [List.pairwise_append]
        refine ⟨hp, by simp, ?_⟩
        intro x hx b hb
        rw [List.mem_singleton] at hb
        subst hb
        intro he
        have hcx := hs x hx
        rw [he, hnc] at hcx
        exact Bool.false_ne_true hcx
      have hs' : ∀ x ∈ uniq ++ [stripQ it],
          (seen ++ [pyLower (stripQ it)]).contains (pyLower x) = true := by
        intro x hx
        have hmem : pyLower x ∈ seen ++ [pyLower (stripQ it)] := by
          rcases List.mem_append.mp hx with hx | hx
          · exact List.mem_append.mpr (Or.inl (by
              have := hs x hx
              simpa [List.contains, List.elem_iff] using this))
          · rw [List.mem_singleton] at hx
            subst hx
            exact List.mem_append.mpr (Or.inr (List.mem_singleton.mpr rfl))
        simpa [List.contains, List.elem_iff] using hmem
      split
      · exact hp'
      · exact ih _ _ hp' hs'
    · split
      · exact hp
      · exact ih _ _ hp hs

theorem llmGenerateFollowups_ok {llm : String × String → Except Unit String}
    {q a : String} {cands : List Hit} {k : Int} {s : List String}
    (h : llmGenerateFollowups llm q a cands k = Except.ok s) :
    ∃ text, s = dedupCap k (safeJsonList text) [] [] := by
  unfold llmGenerateFollowups at h
  cases hl : llm (sysPrompt, usrPrompt q a cands) with
  | error e => rw [hl] at h; cases h
  | ok text =>
    rw [hl] at h
    injection h with h'
    exact ⟨text, h'.symm⟩

theorem llmPhase_cases (env : Env) (q a : String) (hits : List Hit) (k : Int) :
    llmPhase env q a hits k = ([], "fallback") ∨
    llmPhase env q a hits k = ([], "fallback_error") ∨
    ∃ s, s = dedupCap k (safeJsonList ((env.llm (sysPrompt, usrPrompt q a hits)).toOption.getD "")) [] [] ∧
      llmPhase env q a hits k = (s, if !s.isEmpty then "openai" else "fallback") := by
  unfold llmPhase
  split
  · cases hl : llmGenerateFollowups env.llm q a hits k with
    | ok s =>
      right; right
      refine ⟨s, ?_, rfl⟩
      unfold llmGenerateFollowups at hl
      cases hll : env.llm (sysPrompt, usrPrompt q a hits) with
      | error e => rw [hll] at hl; cases hl
      | ok text =>
        rw [hll] at hl
        injection hl with h'
        rw [← h']
        rfl
    | error e => right; left; rfl
  · left; rfl

theorem llmPhase_mem_ne {env : Env} {q a : String} {hits : List Hit} {k : Int}
    {x : String} (hx : x ∈ (llmPhase env q a hits k).1) : x ≠ "" := by
  rcases llmPhase_cases env q a hits k with h | h | ⟨s, hs, h⟩ <;> rw [h] at hx
  · cases hx
  · cases hx
  · rw [hs] at hx
    exact dedupCap_mem_ne k _ [] [] (by intro y hy; cases hy) x hx

theorem fallbackSuggestions_mem_ne {hits : List Hit} {k : Int} {x : String}
    (hx : x ∈ fallbackSuggestions hits k) : x ≠ "" := by
  simp only [fallbackSuggestions] at hx
  split at hx
  · have hm := mem_pyTake hx
    have hh : ∀ y ∈ hardcodedSuggestions, y ≠ "" := by decide
    exact hh x hm
  · have hm := mem_pyTake hx
    have hb := (List.mem_filter.mp hm).2
    exact bne_iff_ne.mp hb

theorem build_eq (env : Env) (q a : String) (k : Int) :
    buildLlmStyleFollowups env q a k =
      (pyTake k
        ((if (llmPhase env q a (searchedHits env q a) k).1.isEmpty then
            fallbackSuggestions (searchedHits env q a) k
          else (llmPhase env q a (searchedHits env q a) k).1).map
          (fun s => Chip.mk s (Payload.faq s))),
       shouldOfferLiveChat q a (searchedHits env q a).length,
       (llmPhase env q a (searchedHits env q a) k).2) := rfl

theorem build_escalate (env : Env) (q a : String) (k : Int) :
    (buildLlmStyleFollowups env q a k).2.1 = shouldOfferLiveChat q a 0 := rfl

theorem build_mem_suggestion {env : Env} {q a : String} {k : Int} {c : Chip}
    (hc : c ∈ (buildLlmStyleFollowups env q a k).1) : c.label ≠ "" := by
  rw [build_eq] at hc
  have hm := mem_pyTake hc
  rw [List.mem_map] at hm
  obtain ⟨s, hs, hcs⟩ := hm
  have hne : s ≠ "" := by
    split at hs
    · exact fallbackSuggestions_mem_ne hs
    · exact llmPhase_mem_ne hs
  rw [← hcs]
  exact hne

/-- C1, amended to nonnegative `k` (the Python `int` argument can be
negative, where slicing counts from the end): for every environment,
question, answer and `k ≥ 0`, `build_llm_style_followups` returns a triple
whose chip list has length at most `k`, whose chips all carry a non-empty
label, and whose source tag is one of "openai", "fallback",
"fallback_error". -/
theorem c1_followups_contract (env : Env) (q a : String) (k : Int)
    (hk : 0 ≤ k) :
    ((buildLlmStyleFollowups env q a k).1.length : Int) ≤ k ∧
    (buildLlmStyleFollowups env q a k).1.all (fun c => c.label != "") = true ∧
    ((buildLlmStyleFollowups env q a k).2.2 = "openai" ∨
     (buildLlmStyleFollowups env q a k).2.2 = "fallback" ∨
     (buildLlmStyleFollowups env q a k).2.2 = "fallback_error") := by
  refine ⟨?_, ?_, ?_⟩
  · rw [build_eq]
    exact pyTake_length_le hk _
  · rw [List.all_eq_true]
    intro c hc
    exact bne_iff_ne.mpr (build_mem_suggestion hc)
  · have hb : (buildLlmStyleFollowups env q a k).2.2 =
        (llmPhase env q a (searchedHits env q a) k).2 := rfl
    rw [hb]
    rcases llmPhase_cases env q a (searchedHits env q a) k with h | h | ⟨s, _, h⟩ <;>
      rw [h]
    · right; left; rfl
    · right; right; rfl
    · dsimp only
      split
      · left; rfl
      · right; left; rfl

/-- Witness for `c1_followups_contract` at a concrete environment and
`k = 4`. -/
theorem c1_followups_contract_witness :
    ((buildLlmStyleFollowups envPlain "q" "" 4).1.length : Int) ≤ 4 :=
  (c1_followups_contract envPlain "q" "" 4 (by decide)).1

/-- C1 as stated is false at `k = -1`: Python's negative slicing leaves
two chips, and a two-chip list does not have length at most `-1`. -/
theorem c1_counterexample :
    ¬ (((buildLlmStyleFollowups envPlain "q" "" (-1)).1.length : Int) ≤ (-1 : Int)) := by
  decide

/-- C2, amended to the model path: whenever `build_llm_style_followups`
reports source "openai", no two returned chips have labels that agree
after lowercasing.  (The knowledge-title fallback path performs no
deduplication, see the counterexample.) -/
theorem c2_dedup_openai (env : Env) (q a : String) (k : Int)
    (h : (buildLlmStyleFollowups env q a k).2.2 = "openai") :
    List.Pairwise (fun c d : Chip => pyLower c.label ≠ pyLower d.label)
      (buildLlmStyleFollowups env q a k).1 := by
  have hb2 : (buildLlmStyleFollowups env q a k).2.2 =
      (llmPhase env q a (searchedHits env q a) k).2 := rfl
  rw [hb2] at h
  rcases llmPhase_cases env q a (searchedHits env q a) k with hp | hp | ⟨s, hs, hp⟩
  · rw [hp] at h; exact absurd h (by decide)
  · rw [hp] at h; exact absurd h (by decide)
  · rw [hp] at h
    dsimp only at h
    cases he : s.isEmpty with
    | true => rw [he] at h; simp at h
    | false =>
      rw [build_eq, hp]
      dsimp only
      rw [he, if_neg Bool.false_ne_true]
      apply List.Pairwise.sublist (pyTake_sublist k _)
      rw [List.pairwise_map]
      rw [hs]
      exact dedupCap_pairwise k _ [] [] List.Pairwise.nil (by intro y hy; cases hy)

/-- Witness for `c2_dedup_openai`: a configured model path answering a
JSON array with a case-insensitive duplicate. -/
theorem c2_dedup_openai_witness :
    List.Pairwise (fun c d : Chip => pyLower c.label ≠ pyLower d.label)
      (buildLlmStyleFollowups envOpenai "q" "a" 4).1 :=
  c2_dedup_openai envOpenai "q" "a" 4 (by decide)

/-- C2 as stated is false: with the model path disabled and two knowledge
hits whose titles differ only in case, both titles become chips. -/
theorem c2_counterexample :
    (buildLlmStyleFollowups envDupHits "q" "" 4).1.map Chip.label =
      ["Apply now", "apply now"] ∧
    ¬ List.Pairwise (fun c d : Chip => pyLower c.label ≠ pyLower d.label)
        (buildLlmStyleFollowups envDupHits "q" "" 4).1 := by
  constructor
  · rfl
  · intro h
    have h' : List.Pairwise (fun c d : Chip => pyLower c.label ≠ pyLower d.label)
        [Chip.mk "Apply now" (Payload.faq "Apply now"),
         Chip.mk "apply now" (Payload.faq "apply now")] := h
    have hr := List.rel_of_pairwise_cons h' (List.mem_cons_self _ _)
    exact hr rfl

/-- C6: the escalation signal of `build_llm_style_followups` is true
exactly when the lowercased question contains an escalation keyword or the
lowercased answer contains a low-confidence phrase; in particular a
question containing "talk to someone" escalates regardless of the answer,
and an answer containing "I don't have" escalates regardless of the
question. -/
theorem c6_escalation (env : Env) :
    (∀ q a k, ((buildLlmStyleFollowups env q a k).2.1 = true ↔
      (∃ kw ∈ escalationKeywords, pyIn kw (pyLower q) = true) ∨
      (∃ ph ∈ lowConfPhrases, pyIn ph (pyLower a) = true))) ∧
    (∀ a k, (buildLlmStyleFollowups env "can i talk to someone" a k).2.1 = true) ∧
    (∀ q k, (buildLlmStyleFollowups env q "Sorry, I don\x27t have that information." k).2.1 = true) := by
  refine ⟨fun q a k => ?_, fun a k => ?_, fun q k => ?_⟩
  · rw [build_escalate]
    unfold shouldOfferLiveChat wantsHuman
    rw [Bool.or_eq_true, List.any_eq_true, List.any_eq_true]
  · rw [build_escalate]
    unfold shouldOfferLiveChat
    rw [show wantsHuman "can i talk to someone" = true from rfl, Bool.true_or]
  · rw [build_escalate]
    unfold shouldOfferLiveChat
    rw [show (lowConfPhrases.any fun p =>
        pyIn p (pyLower "Sorry, I don\x27t have that information.")) = true from rfl,
      Bool.or_true]

theorem eventGenerator_eq (env : Env) (q : String) :
    ∀ (chunks : List String) (acc : String),
      eventGenerator env q acc chunks =
        chunks.map Event.chunk ++
          streamTail env q (chunks.foldl (fun a c => a ++ c) acc) := by
  intro chunks
  induction chunks with
  | nil => intro acc; rfl
  | cons c rest ih =>
    intro acc
    show Event.chunk c :: eventGenerator env q (acc ++ c) rest = _
    rw [ih (acc ++ c)]
    rfl

/-- C4: the streaming endpoint emits exactly one chunk event per provider
chunk, in provider order, then exactly one follow-ups event computed from
the concatenation of all chunks, then exactly one terminal event, and
nothing else; in particular for provider chunks ["Hi ", "there"] the
sequence is exactly those two chunk events, one follow-ups event and one
done event, in that order. -/
theorem c4_stream_events :
    (∀ env q chunks, chatQuestionStream env q chunks =
      chunks.map Event.chunk ++ streamTail env q (String.join chunks)) ∧
    (∀ env q full, streamTail env q full =
      [Event.followups (buildLlmStyleFollowups env q full 4).2.1
        (if (buildLlmStyleFollowups env q full 4).2.1 then [adminChip]
         else (buildLlmStyleFollowups env q full 4).1)
        (if env.debugFollowups then some (buildLlmStyleFollowups env q full 4).2.2
         else none),
       Event.done]) ∧
    (∀ env q, chatQuestionStream env q ["Hi ", "there"] =
      [Event.chunk "Hi ", Event.chunk "there"] ++ streamTail env q "Hi there") := by
  refine ⟨fun env q chunks => ?_, fun env q full => rfl, fun env q => ?_⟩
  · rw [chatQuestionStream, eventGenerator_eq]
    rfl
  · rw [chatQuestionStream, eventGenerator_eq]
    rfl

/-- C7: in both the synchronous and the streaming handlers, whenever the
escalation signal is true the suggested-followups of the response are
exactly the single "Talk to an admin" escalation chip, regardless of the
generated chips. -/
theorem c7_escalation_chip :
    (∀ env g q r, chatQuestion env g q = Except.ok r →
      r.suggest_live_chat = true → r.suggested_followups = [adminChip]) ∧
    (∀ env q chunks b chips gen,
      Event.followups b chips gen ∈ chatQuestionStream env q chunks →
      b = true → chips = [adminChip]) := by
  constructor
  · intro env g q r hok hs
    unfold chatQuestion at hok
    cases hg : g q with
    | error e => rw [hg] at hok; cases hok
    | ok answer =>
      rw [hg] at hok
      dsimp only at hok
      injection hok with hok
      subst hok
      dsimp only at hs ⊢
      rw [hs]
      simp
  · intro env q chunks b chips gen hmem hb
    rw [chatQuestionStream, eventGenerator_eq] at hmem
    rw [List.mem_append] at hmem
    rcases hmem with hmem | hmem
    · rw [List.mem_map] at hmem
      obtain ⟨x, _, hx⟩ := hmem
      cases hx
    · have hmem' : Event.followups b chips gen ∈
          [Event.followups
            (buildLlmStyleFollowups env q (chunks.foldl (fun a c => a ++ c) "") 4).2.1
            (if (buildLlmStyleFollowups env q (chunks.foldl (fun a c => a ++ c) "") 4).2.1
              then [adminChip]
              else (buildLlmStyleFollowups env q (chunks.foldl (fun a c => a ++ c) "") 4).1)
            (if env.debugFollowups
              then some (buildLlmStyleFollowups env q (chunks.foldl (fun a c => a ++ c) "") 4).2.2
              else none),
           Event.done] := hmem
      rcases List.mem_cons.mp hmem' with heq | hmem2
      · injection heq with h1 h2 h3
        rw [h2]
        rw [← h1, hb]
        simp
      · rw [List.mem_singleton] at hmem2
        cases hmem2

/-- Witness for `c7_escalation_chip`: a question asking for an agent. -/
theorem c7_escalation_chip_witness :
    (ChatResponse.mk "ok" true [adminChip] none).suggested_followups = [adminChip] :=
  c7_escalation_chip.1 envPlain okProvider "i need an agent"
    (ChatResponse.mk "ok" true [adminChip] none) rfl rfl

/-- C5: the ticket-extraction handler is total (it never propagates an
exception), and whenever the provider call raises, or the model answer
contains none of the four labelled fields, the result is exactly the
all-defaults ticket with the original message as description. -/
theorem c5_ticket_defaults (g : String → Except Unit String) (msg : String)
    (h : g (analysisPrompt msg) = Except.error () ∨
      ∃ a, g (analysisPrompt msg) = Except.ok a ∧ noTicketFields a = true) :
    analyzeTicketRequest g msg = ticketDefaults msg := by
  unfold analyzeTicketRequest
  rcases h with h | ⟨a, ha, hf⟩
  · rw [h]
  · rw [ha]
    dsimp only
    have hfs := hf
    unfold noTicketFields at hfs
    rw [Bool.and_eq_true, Bool.and_eq_true, Bool.and_eq_true] at hfs
    obtain ⟨⟨⟨h1, h2⟩, h3⟩, h4⟩ := hfs
    rw [Option.isNone_iff_eq_none] at h1 h2 h3 h4
    rw [h1, h2, h3, h4]
    rfl

/-- Witness for `c5_ticket_defaults`: a provider that raises. -/
theorem c5_ticket_defaults_witness :
    analyzeTicketRequest errProvider "printer is broken" =
      ticketDefaults "printer is broken" :=
  c5_ticket_defaults errProvider "printer is broken" (Or.inl rfl)

theorem analyzeMapLoop_eq (m : String) :
    ∀ l : List (String × Building),
      analyzeMapLoop m l =
        match l.find? (mapHit m) with
        | some e => MapResult.mk (some e.2) (mapDesc e.2)
        | none => MapResult.mk none genericMapDescription := by
  intro l
  induction l with
  | nil => rfl
  | cons e rest ih =>
    show (if mapHit m e then MapResult.mk (some e.2) (mapDesc e.2)
          else analyzeMapLoop m rest) = _
    cases hp : mapHit m e with
    | true => simp [List.find?, hp]
    | false =>
      simp only [List.find?, hp, if_neg (by simp : ¬(false = true))]
      exact ih

/-- C8: the map-lookup handler returns the record of the first alias, in
declaration order, whose key occurs in the lowercased message or whose
lowercased canonical name occurs in it, with a description embedding the
building's name; a null location with the generic description otherwise.
In particular "where is the uc" resolves to the University Center record
and "show me campus" yields a null location. -/
theorem c8_map_lookup :
    (∀ msg, analyzeMapRequest msg =
      match mapBuildings.find? (mapHit (pyLower msg)) with
      | some e => MapResult.mk (some e.2) (mapDesc e.2)
      | none => MapResult.mk none genericMapDescription) ∧
    mapBuildings.all (fun e => pyIn e.2.name (mapDesc e.2)) = true ∧
    (analyzeMapRequest "where is the uc").location.map Building.name =
      some "University Center (UC)" ∧
    analyzeMapRequest "show me campus" = MapResult.mk none genericMapDescription := by
  exact ⟨fun msg => analyzeMapLoop_eq (pyLower msg) mapBuildings, rfl, rfl, rfl⟩

theorem resolveTexts_eq (ot dt : String) :
    ∀ (l : List (String × RB)) (o d : Option RB),
      resolveTexts ot dt o d l =
        ((match l.reverse.find? (aliasHit ot) with
          | some e => some e.2
          | none => o),
         (match l.reverse.find? (aliasHit dt) with
          | some e => some e.2
          | none => d)) := by
  intro l
  induction l with
  | nil => intro o d; rfl
  | cons e rest ih =>
    intro o d
    show resolveTexts ot dt (if aliasHit ot e then some e.2 else o)
        (if aliasHit dt e then some e.2 else d) rest = _
    rw [ih]
    rw [List.reverse_cons, List.find?_append, List.find?_append,
      Prod.mk.injEq]
    constructor
    · cases hro : rest.reverse.find? (aliasHit ot) with
      | some x => rfl
      | none =>
        cases hc : aliasHit ot e with
        | true => simp [List.find?, hc]
        | false => simp [List.find?, hc]
    · cases hrd : rest.reverse.find? (aliasHit dt) with
      | some x => rfl
      | none =>
        cases hc : aliasHit dt e with
        | true => simp [List.find?, hc]
        | false => simp [List.find?, hc]

/-- C9: in the routing handler's alias resolution the whole table is
scanned and each matching alias overwrites the previous match, so the
latest matching alias in declaration order wins; an origin text containing
both "uc" and "dining" resolves to Islander Dining, whereas the map-lookup
handler resolves the same text to the University Center — the opposite
tie-break. -/
theorem c9_last_match_wins :
    (∀ ot dt o d, resolveTexts ot dt o d routeBuildings =
      (lastResolve ot o, lastResolve dt d)) ∧
    (resolveTexts "uc dining" "" none none routeBuildings).1.map RB.name =
      some "Islander Dining" ∧
    (analyzeMapRequest "uc dining").location.map Building.name =
      some "University Center (UC)" := by
  refine ⟨fun ot dt o d => resolveTexts_eq ot dt routeBuildings o d, rfl, rfl⟩

theorem routingLoop_eq (message : String) :
    ∀ (pats : List (String × String)) (o d : Option RB),
      routingLoop message o d pats =
        pats.foldl (pairUpdate message) (o, d) := by
  intro pats
  induction pats with
  | nil => intro o d; rfl
  | cons p rest ih =>
    intro o d
    rw [List.foldl_cons]
    cases hp : pairSplit message p with
    | none =>
      simp only [routingLoop, hp]
      rw [ih]
      simp [pairUpdate, hp]
    | some odp =>
      obtain ⟨ot, dt⟩ := odp
      simp only [routingLoop, hp]
      rw [ih]
      have hr := resolveTexts_eq ot dt routeBuildings o d
      rw [hr]
      simp [pairUpdate, hp, lastResolve]

/-- C3 (amended): every preposition pair is attempted in order with no
short-circuit, but origin and destination accumulate across the pairs:
each pair whose split succeeds overwrites only the sides that its origin
or destination text resolves (latest alias match winning), and a side not
resolved by a later pair keeps the value from an earlier pair; the
response is found exactly when both sides hold a building after the last
pair.  The concrete parts show a message where two pairs split. -/
theorem c3_routing_accumulates :
    (∀ msg, analyzeRoutingRequest msg =
      match routingPatterns.foldl (pairUpdate (pyLower msg)) (none, none) with
      | (some o, some d) => RoutingResult.mk (some o) (some d) true none
      | _ => RoutingResult.mk none none false (some guidanceMessage)) ∧
    pairSplit "from library to uc get to xx from yy" ("from", "to") =
      some ("library", "uc get") ∧
    pairSplit "from library to uc get to xx from yy" ("get to", "from") =
      some ("xx", "yy") ∧
    analyzeRoutingRequest "from library to uc get to xx from yy" =
      RoutingResult.mk
        (some (RB.mk "Mary and Jeff Bell Library" "27.713788736691168" "-97.32474868648656"))
        (some (RB.mk "University Center (UC)" "27.712071037382053" "-97.3257065414334"))
        true none := by
  refine ⟨fun msg => ?_, rfl, rfl, rfl⟩
  unfold analyzeRoutingRequest
  dsimp only
  rw [routingLoop_eq]

/-- C3 as stated is false: in the message below the last preposition pair
whose split succeeds is ("get to", "from"), whose origin and destination
texts "xx" and "yy" resolve to no building at all, yet the handler
returns found with the origin and destination determined by the earlier
("from", "to") pair. -/
theorem c3_counterexample :
    pairSplit "from library to uc get to xx from yy" ("get to", "from") =
      some ("xx", "yy") ∧
    lastResolve "xx" none = none ∧
    lastResolve "yy" none = none ∧
    (analyzeRoutingRequest "from library to uc get to xx from yy").found = true ∧
    (analyzeRoutingRequest "from library to uc get to xx from yy").origin.map RB.name =
      some "Mary and Jeff Bell Library" ∧
    (analyzeRoutingRequest "from library to uc get to xx from yy").destination.map RB.name =
      some "University Center (UC)" :=
  ⟨rfl, rfl, rfl, rfl, rfl, rfl⟩

/-- C10 (amended): `_safe_json_list` never raises and returns exactly the
string elements of the JSON list it extracts: the directly parsed document
when that parse yields a list; otherwise — including when the document
parses to a non-list value — the greedy bracketed fragment from the first
opening bracket to the last closing bracket, when that fragment parses to
a list; and the empty list in every other case (empty input, unparseable
input with no usable fragment, fragment parsing to a non-list). -/
theorem c10_safe_json_list (s : String) :
    safeJsonList s = ((extractedList s).map strOnly).getD [] := by
  by_cases hs : s = ""
  · subst hs; rfl
  · unfold safeJsonList extractedList
    rw [if_neg hs]
    cases hj : jsonParse s with
    | some v =>
      cases v with
      | jarr xs => rfl
      | jnull => ?_
      | jbool b => ?_
      | jnum => ?_
      | jstr str => ?_
      | jobj fs => ?_
      all_goals
        cases hb : bracketFrag s with
        | none => rfl
        | some frag =>
          cases hf : jsonParse frag with
          | none => simp [hf]
          | some w => cases w <;> simp [hf]
    | none =>
      cases hb : bracketFrag s with
      | none => rfl
      | some frag =>
        cases hf : jsonParse frag with
        | none => simp [hf]
        | some w => cases w <;> simp [hf]

/-- C10 as stated is false on JSON that is not a list: a JSON object
containing a bracketed list is extracted via the fragment fallback instead
of yielding the empty list. -/
theorem c10_counterexample :
    safeJsonList "\x7b\"a\": [\"x\"]\x7d" = ["x"] ∧
    isJsonNonList "\x7b\"a\": [\"x\"]\x7d" = true :=
  ⟨rfl, rfl⟩
